import Mathlib

/-!
Verification of the observation-ingestion pipeline of `k-yomo/line_analyzer`
(`functions/anlyze_line_image.go`) against its natural-language specification.

Go strings are modelled as lists of characters (`GoStr`); Go `float64`
confidence values are modelled as exact rationals (every IEEE double is a
rational number and the only float operation the code performs is an order
comparison against the exactly representable literal `0.5`, so the order on ℚ
restricted to those values coincides with the float comparison); Go `time.Time`
values are modelled by the instant they denote, as a Unix-seconds integer
(`time.Unix(n, 0).Local()` changes only the display location of the value, not
the instant, so the instant is `n` itself); machine integers are modelled as
`Nat`/`Int` with the explicit range checks that `strconv.ParseInt` performs.

External collaborators (GCS, BigQuery, the AWS session and the two Rekognition
calls, `xid` generation, `time.Now`, `os.Getenv`) are modelled as an
environment of call outcomes (`Env`); the pipeline body is translated from the
source as a function of that environment which also records the externally
visible calls it performs, in order, as a trace of `Act` values.
-/

/-- Go strings, modelled as their character sequences. -/
abbrev GoStr := List Char

/-- `s.data` of a Lean string literal, used to write `GoStr` constants. -/
def str (s : String) : GoStr := s.data

/-! ## `path/filepath` and `strings` helpers used by the parser

`filepath.Ext` scans the path backwards from its end; it stops with `""` when
it reaches a path separator or the start, and returns the suffix from the
final `.` otherwise (unix separator `/`). -/

/-- Backwards scan of `filepath.Ext`: the argument is the reversed path, the
accumulator holds the (original-order) suffix scanned so far. -/
def extRevAux (acc : GoStr) : GoStr → GoStr
  | [] => []
  | c :: rest =>
    if c = '/' then []
    else if c = '.' then c :: acc
    else extRevAux (c :: acc) rest

/-- Go `filepath.Ext`: suffix beginning at the final dot in the final path
element, `""` if there is none. -/
def goFilepathExt (path : GoStr) : GoStr := extRevAux [] path.reverse

/-- Go `filepath.Base` (unix rules): `"."` for the empty path, otherwise strip
trailing slashes, keep everything after the last slash, and `"/"` if nothing
remains. -/
def goFilepathBase (path : GoStr) : GoStr :=
  if path = [] then [ '.' ]
  else
    let p := (path.reverse.dropWhile (fun c => c = '/')).reverse
    let q := (p.reverse.takeWhile (fun c => ¬ (c = '/'))).reverse
    if q = [] then [ '/' ] else q

/-- Go `strings.Split(s, sep)` for a one-character separator: splits around
each occurrence of `sep`; the result is never empty (`Split("", sep) = [""]`). -/
def splitOnChar (sep : Char) : GoStr → List GoStr
  | [] => [[]]
  | c :: rest =>
    match splitOnChar sep rest with
    | [] => [[]]
    | t :: ts => if c = sep then [] :: t :: ts else (c :: t) :: ts

/-- The two error kinds of Go `strconv.ParseInt`: `ErrSyntax` and `ErrRange`. -/
inductive IntParseErr
  | errInvalid
  | errRange
deriving DecidableEq

/-- Numeric value of an ASCII digit, as in Go `c - '0'`. -/
def digitVal (c : Char) : Nat := c.toNat - 48

/-- Digit-accumulation loop of Go `strconv.ParseUint` in base 10: consumes the
characters left to right, failing on the first character outside `'0'..'9'`. -/
def parseDigitsAux (acc : Nat) : GoStr → Option Nat
  | [] => some acc
  | c :: rest =>
    if 48 ≤ c.toNat ∧ c.toNat ≤ 57 then parseDigitsAux (10 * acc + digitVal c) rest
    else none

/-- Go `strconv.ParseUint(s, 10, _)` digit parsing (empty input is a syntax
error); the range check is applied by the caller. -/
def parseDigits : GoStr → Option Nat
  | [] => none
  | l => parseDigitsAux 0 l

/-- Go `strconv.ParseInt(s, 10, 64)`: optional sign, decimal digits, and the
signed 64-bit range check (`v ≥ 2^63` is a range error for non-negative input,
`v > 2^63` for negative input). -/
def goParseInt64 (s : GoStr) : Except IntParseErr Int :=
  match s with
  | [] => .error .errInvalid
  | c :: rest =>
    if c = '-' then
      match parseDigits rest with
      | none => .error .errInvalid
      | some n => if n > 2 ^ 63 then .error .errRange else .ok (-(n : Int))
    else if c = '+' then
      match parseDigits rest with
      | none => .error .errInvalid
      | some n => if n ≥ 2 ^ 63 then .error .errRange else .ok (n : Int)
    else
      match parseDigits (c :: rest) with
      | none => .error .errInvalid
      | some n => if n ≥ 2 ^ 63 then .error .errRange else .ok (n : Int)

/-- Value of a digit string, matching the accumulator of `parseDigitsAux`. -/
def digitsValAux (acc : Nat) : GoStr → Nat
  | [] => acc
  | c :: rest => digitsValAux (10 * acc + digitVal c) rest

/-- Base-10 value of a digit string. -/
def digitsVal (l : GoStr) : Nat := digitsValAux 0 l

/-! ## `getMetaFromObjName` -/

/-- Outcome of `getMetaFromObjName`: success returns the shop id and the
parsed Unix-seconds instant; `err` is the `strconv` error returned through the
function's error result (together with the shop id it also returns);
`panicked` is the runtime panic raised by the out-of-range index
`objMetas[1]` when the basename contains no underscore. -/
inductive ParseMetaResult
  | ok (shopID : GoStr) (observedAtUnix : Int)
  | err (shopID : GoStr) (e : IntParseErr)
  | panicked
deriving DecidableEq

/-- Line 101 of the source: `filepath.Base(objName[:len(objName)-len(filepath.Ext(objName))])`. -/
def baseNameNoExt (objName : GoStr) : GoStr :=
  goFilepathBase (objName.take (objName.length - (goFilepathExt objName).length))

/-- `getMetaFromObjName` (lines 100–109): strip the extension, take the base
name, split on `'_'`, use token 0 as the shop id and `ParseInt` token 1 as
Unix seconds. Accessing token 1 panics when the split produced fewer than two
tokens. -/
def getMetaFromObjName (objName : GoStr) : ParseMetaResult :=
  match splitOnChar '_' (baseNameNoExt objName) with
  | [] => .panicked
  | [ _only ] => .panicked
  | shopID :: second :: _rest =>
    match goParseInt64 second with
    | .error e => .err shopID e
    | .ok n => .ok shopID n

/-! ## Rekognition result shapes (the fields the code reads) -/

/-- A bounding box of a detected label instance (opaque to the pipeline: only
the number of instances is ever used). -/
structure BoundingBox where
  width : ℚ
  height : ℚ
  left : ℚ
  top : ℚ
deriving DecidableEq

/-- One entry of `label.Instances`. -/
structure LabelInstance where
  boundingBox : BoundingBox
  confidence : ℚ
deriving DecidableEq

/-- One entry of `detectLabelOutput.Labels`: `Name`, `Confidence`,
`Instances`. -/
structure RekLabel where
  name : GoStr
  confidence : ℚ
  instances : List LabelInstance
deriving DecidableEq

/-- `faceDetail.Gender`: value and confidence. -/
structure RekGender where
  value : GoStr
  confidence : ℚ
deriving DecidableEq

/-- `faceDetail.AgeRange`: low and high bounds (`int64`). -/
structure RekAgeRange where
  low : Int
  high : Int
deriving DecidableEq

/-- One entry of `detectFacesOutput.FaceDetails` (the fields read by the
code). -/
structure FaceDetail where
  gender : RekGender
  ageRange : RekAgeRange
  confidence : ℚ
deriving DecidableEq

/-! ## Persisted record shapes -/

/-- `lineObservation` row (one per invocation). `WaitingPeopleNum` is a Go
`int` that only ever holds `len(label.Instances)` or `0`, hence `Nat`. -/
structure LineObservation where
  id : GoStr
  shopID : GoStr
  waitingPeopleNum : Nat
  observedAt : Int
  createdAt : Int
deriving DecidableEq

/-- `waitingCustomerMeta` row (one per detected face). -/
structure WaitingCustomerMeta where
  lineObservationID : GoStr
  gender : GoStr
  genderConfidence : ℚ
  lowestAge : Int
  highestAge : Int
  confidence : ℚ
deriving DecidableEq

/-! ## Detection logic (`detectWaitingCustomersFromImg`, lines 111–155) -/

/-- The `"Person"` label name compared against in the label loop. -/
def personStr : GoStr := str "Person"

/-- The label loop of lines 125–132: skip a label when its confidence is
below `0.5`, otherwise overwrite `waitingPeopleNum` with the instance count
whenever the label name is exactly `"Person"`. The accumulator is the Go
variable `waitingPeopleNum` (zero-initialised at the named return). -/
def detectPeopleNumLoop (labels : List RekLabel) (waitingPeopleNum : Nat) : Nat :=
  match labels with
  | [] => waitingPeopleNum
  | label :: rest =>
    if label.confidence < mkRat 1 2 then detectPeopleNumLoop rest waitingPeopleNum
    else if label.name = personStr then detectPeopleNumLoop rest label.instances.length
    else detectPeopleNumLoop rest waitingPeopleNum

/-- Value of `waitingPeopleNum` after the label loop, starting from its zero
value. -/
def detectPeopleNum (labels : List RekLabel) : Nat := detectPeopleNumLoop labels 0

/-- The face loop of lines 142–153: one `waitingCustomerMeta` per
`FaceDetail`, carrying the invocation's `lineObservationID`. -/
def buildCustomers (lineObservationID : GoStr) : List FaceDetail → List WaitingCustomerMeta
  | [] => []
  | fd :: rest =>
    { lineObservationID := lineObservationID
      gender := fd.gender.value
      genderConfidence := fd.gender.confidence
      lowestAge := fd.ageRange.low
      highestAge := fd.ageRange.high
      confidence := fd.confidence } :: buildCustomers lineObservationID rest

/-! ## External world and error plumbing -/

/-- An opaque error produced by an external collaborator. -/
structure GoErr where
  msg : GoStr
deriving DecidableEq

/-- Root cause carried inside a wrapped error: either an external
collaborator's error or the `strconv.ParseInt` error from the parser. -/
inductive ErrCause
  | external (e : GoErr)
  | intParse (e : IntParseErr)
deriving DecidableEq

/-- A `github.com/pkg/errors`-style wrapped error: the wrap messages from
outermost to innermost, and the preserved root cause. -/
structure WrappedErr where
  wraps : List GoStr
  cause : ErrCause
deriving DecidableEq

/-- Externally visible steps performed by an invocation, in program order. -/
inductive Act
  | initGcsClient
  | initBqClient
  | generateID (id : GoStr)
  | parseObjName (objName : GoStr)
  | openReader
  | newAwsSession
  | readImgBytes
  | detectLabelsCall
  | detectFacesCall
  | putLineObservationRow (row : LineObservation)
  | putWaitingCustomerMetaRows (rows : List WaitingCustomerMeta)
deriving DecidableEq

/-- Result of one invocation of the entry point: normal return `nil`, a
returned wrapped error, the process-terminating `log.Fatal` of `mustEnv`, or
a runtime panic propagating out of the function. -/
inductive RunResult
  | ok
  | err (e : WrappedErr)
  | fatal (msg : GoStr)
  | panicked
deriving DecidableEq

/-- The GCS event delivered to the entry point. -/
structure GcsEvent where
  bucket : GoStr
  objectName : GoStr
  contentType : GoStr

/-- Outcomes of the external calls an invocation makes, fixed per
invocation: client constructors, the object reader, `ioutil.ReadAll`, the
two Rekognition calls, the two BigQuery inserts, plus the values produced by
`os.Getenv("GCP_PROJECT_ID")`, `xid.New().String()` and `time.Now()`. -/
structure Env where
  gcpProjectID : GoStr
  initGcsClient : Except GoErr Unit
  initBqClient : Except GoErr Unit
  freshID : GoStr
  now : Int
  newReader : Except GoErr Unit
  newAwsSession : Except GoErr Unit
  readAll : Except GoErr (List Nat)
  detectLabels : Except GoErr (List RekLabel)
  detectFaces : Except GoErr (List FaceDetail)
  putLineObservation : Option GoErr
  putWaitingCustomerMeta : Option GoErr

/-- Outcome of `mustEnv` (lines 157–163): the value, or the
process-terminating `log.Fatal` when the variable is unset or empty. -/
inductive MustEnvResult
  | value (v : GoStr)
  | fatalExit (msg : GoStr)
deriving DecidableEq

/-- `mustEnv`: look the key up and `log.Fatal` on the empty value. -/
def mustEnv (envValue : GoStr) (key : GoStr) : MustEnvResult :=
  if envValue = [] then
    .fatalExit ((str "env variable with key=") ++ key ++ (str " is not found"))
  else .value envValue

/-- `detectWaitingCustomersFromImg` (lines 111–155) as a function of the
external-call outcomes: AWS session, `ReadAll`, `DetectLabels`,
`DetectFaces`, then the label loop and the face loop. Returns the calls
performed and either a wrapped error or the pair
`(waitingPeopleNum, customers)`. -/
def detectWaitingCustomersFromImg (env : Env) (lineObservationID : GoStr) :
    List Act × Except WrappedErr (Nat × List WaitingCustomerMeta) :=
  match env.newAwsSession with
  | .error ge =>
    ([ Act.newAwsSession ],
     .error { wraps := [ str "new aws session" ], cause := .external ge })
  | .ok _ =>
  match env.readAll with
  | .error ge =>
    ([ Act.newAwsSession, Act.readImgBytes ],
     .error { wraps := [ str "read img bytes from reader" ], cause := .external ge })
  | .ok _bytes =>
  match env.detectLabels with
  | .error ge =>
    ([ Act.newAwsSession, Act.readImgBytes, Act.detectLabelsCall ],
     .error { wraps := [ str "detect labels" ], cause := .external ge })
  | .ok labels =>
  match env.detectFaces with
  | .error ge =>
    ([ Act.newAwsSession, Act.readImgBytes, Act.detectLabelsCall,
       Act.detectFacesCall ],
     .error { wraps := [ str "detect faces" ], cause := .external ge })
  | .ok faces =>
    ([ Act.newAwsSession, Act.readImgBytes, Act.detectLabelsCall,
       Act.detectFacesCall ],
     .ok (detectPeopleNum labels, buildCustomers lineObservationID faces))

/-- `AnalyzeLineImage` (lines 54–98): the orchestrator, translated match by
match from the source. Program order: `time.Now()` (pure, recorded in
`env.now`), GCS client, `mustEnv` + BigQuery client, `xid` generation,
`getMetaFromObjName`, `obj.NewReader`, `detectWaitingCustomersFromImg`,
assembling the `lineObservation` row, the observation insert, then the meta
insert. Every failure is returned wrapped with the stage message of the
source. -/
def AnalyzeLineImage (env : Env) (e : GcsEvent) : List Act × RunResult :=
  match env.initGcsClient with
  | .error ge =>
    ([ Act.initGcsClient ],
     .err { wraps := [ str "init gcs client" ], cause := .external ge })
  | .ok _ =>
  match mustEnv env.gcpProjectID (str "GCP_PROJECT_ID") with
  | .fatalExit m => ([ Act.initGcsClient ], .fatal m)
  | .value _ =>
  match env.initBqClient with
  | .error ge =>
    ([ Act.initGcsClient, Act.initBqClient ],
     .err { wraps := [ str "init bigquery client failed" ], cause := .external ge })
  | .ok _ =>
  let tr0 := [ Act.initGcsClient, Act.initBqClient,
               Act.generateID env.freshID, Act.parseObjName e.objectName ]
  match getMetaFromObjName e.objectName with
  | .panicked => (tr0, .panicked)
  | .err _ pe =>
    (tr0, .err { wraps := [ (str "get lineObservation meta from ") ++ e.objectName ],
                 cause := .intParse pe })
  | .ok shopID observedAt =>
  match env.newReader with
  | .error ge =>
    (tr0 ++ [ Act.openReader ],
     .err { wraps := [ (str "new ") ++ e.objectName ++ (str " reader failed") ],
            cause := .external ge })
  | .ok _ =>
  let det := detectWaitingCustomersFromImg env env.freshID
  match det.2 with
  | .error we =>
    (tr0 ++ [ Act.openReader ] ++ det.1,
     .err { wraps := ((str "analyze ") ++ e.objectName ++ (str " image failed")) :: we.wraps,
            cause := we.cause })
  | .ok (waitingCustomerNum, customers) =>
  let lo : LineObservation :=
    { id := env.freshID
      shopID := shopID
      waitingPeopleNum := waitingCustomerNum
      observedAt := observedAt
      createdAt := env.now }
  match env.putLineObservation with
  | some ge =>
    (tr0 ++ [ Act.openReader ] ++ det.1 ++ [ Act.putLineObservationRow lo ],
     .err { wraps := [ str "put analyzed lineObservation data" ], cause := .external ge })
  | none =>
  match env.putWaitingCustomerMeta with
  | some ge =>
    (tr0 ++ [ Act.openReader ] ++ det.1
         ++ [ Act.putLineObservationRow lo, Act.putWaitingCustomerMetaRows customers ],
     .err { wraps := [ str "load analyzed lineObservation data to bq faile" ],
            cause := .external ge })
  | none =>
    (tr0 ++ [ Act.openReader ] ++ det.1
         ++ [ Act.putLineObservationRow lo, Act.putWaitingCustomerMetaRows customers ],
     .ok)

/-! ## Loop characterisations used to state the label-loop claims -/

/-- A label that the loop of lines 125–132 does not skip and whose name
matches `"Person"`: exactly the labels that overwrite `waitingPeopleNum`. -/
def qualifies (l : RekLabel) : Bool :=
  if l.confidence < mkRat 1 2 then false
  else if l.name = personStr then true else false

/-- The last label of the list that passes `qualifies`. -/
def lastQualified : List RekLabel → Option RekLabel
  | [] => none
  | l :: rest =>
    match lastQualified rest with
    | some r => some r
    | none => if qualifies l then some l else none

/-! ## Concrete fixtures used by the witness theorems -/

/-- A concrete bounding box. -/
def bbZero : BoundingBox := { width := 0, height := 0, left := 0, top := 0 }

/-- A concrete label instance. -/
def instZero : LabelInstance := { boundingBox := bbZero, confidence := mkRat 9 10 }

/-- A `"Person"` label with confidence exactly 0.5 and three instances. -/
def personLabelHalf : RekLabel :=
  { name := str "Person", confidence := mkRat 1 2,
    instances := [ instZero, instZero, instZero ] }

/-- A `"Person"` label with confidence 0.49 and one instance. -/
def personLabelLow : RekLabel :=
  { name := str "Person", confidence := mkRat 49 100, instances := [ instZero ] }

/-- A non-person label with high confidence and two instances. -/
def carLabel : RekLabel :=
  { name := str "Car", confidence := mkRat 9 10, instances := [ instZero, instZero ] }

/-- A `"Person"` label with confidence 0.9 and five instances. -/
def personLabelFive : RekLabel :=
  { name := str "Person", confidence := mkRat 9 10,
    instances := [ instZero, instZero, instZero, instZero, instZero ] }

/-- A concrete face-detection entry. -/
def faceOne : FaceDetail :=
  { gender := { value := str "Female", confidence := mkRat 982 10 }
    ageRange := { low := 20, high := 30 }
    confidence := mkRat 991 10 }

/-- A concrete external error used by witnesses. -/
def geBoom : GoErr := { msg := str "boom" }

/-- The event of the spec's end-to-end example. -/
def evShop42 : GcsEvent :=
  { bucket := str "line-images", objectName := str "shop42_1700000000.jpg"
    contentType := str "image/jpeg" }

/-- An environment in which every external call succeeds. -/
def envAllOk : Env :=
  { gcpProjectID := str "fast-lane-project"
    initGcsClient := .ok ()
    initBqClient := .ok ()
    freshID := str "bq0dg82hfgt4d3i1qgqg"
    now := 1700000100
    newReader := .ok ()
    newAwsSession := .ok ()
    readAll := .ok [ 255, 216 ]
    detectLabels := .ok [ personLabelHalf ]
    detectFaces := .ok [ faceOne ]
    putLineObservation := none
    putWaitingCustomerMeta := none }

/-- `envAllOk` with the `GCP_PROJECT_ID` variable unset. -/
def envNoConfig : Env := { envAllOk with gcpProjectID := [] }

/-- Whether an action is the metadata parse of the object name. -/
def Act.isParse : Act → Bool
  | .parseObjName _ => true
  | _ => false

/-- Whether an action is the read of the object's bytes. -/
def Act.isRead : Act → Bool
  | .readImgBytes => true
  | _ => false

/-- Claim C9 stated in the spec's words over the model, for comparison with
the behaviour of `AnalyzeLineImage`: a missing analytics-store project id
would be detected as a fatal condition at process startup, i.e. before the
invocation performs any work, so an invocation under a missing id would die
with an empty trace. -/
def missingConfigFatalAtStartup : Prop :=
  ∀ (env : Env) (e : GcsEvent), env.gcpProjectID = [] →
    ∃ m, AnalyzeLineImage env e = ([], RunResult.fatal m)

/-! ## Lemmas about the path and string helpers -/

/-- `extRevAux` on a reversed path whose scanned-over prefix contains neither
a dot nor a slash stops at the first dot and returns the suffix from it. -/
lemma extRevAux_clean (l : GoStr) (acc rest : GoStr)
    (h : ∀ c ∈ l, c ≠ '.' ∧ c ≠ '/') :
    extRevAux acc (l ++ '.' :: rest) = '.' :: (l.reverse ++ acc) := by
  induction l generalizing acc with
  | nil => simp [extRevAux]
  | cons c cs ih =>
    have hc := h c (List.mem_cons_self c cs)
    have hcs : ∀ x ∈ cs, x ≠ '.' ∧ x ≠ '/' := fun x hx => h x (List.mem_cons_of_mem c hx)
    simp [extRevAux, hc.1, hc.2, ih (c :: acc) hcs]

/-- `extRevAux` returns the empty extension when it never meets a dot or a
slash. -/
lemma extRevAux_no_dot (l : GoStr) (acc : GoStr)
    (h : ∀ c ∈ l, c ≠ '.' ∧ c ≠ '/') :
    extRevAux acc l = [] := by
  induction l generalizing acc with
  | nil => rfl
  | cons c cs ih =>
    have hc := h c (List.mem_cons_self c cs)
    have hcs : ∀ x ∈ cs, x ≠ '.' ∧ x ≠ '/' := fun x hx => h x (List.mem_cons_of_mem c hx)
    simp [extRevAux, hc.1, hc.2, ih (c :: acc) hcs]

lemma dropWhile_eq_self_of (p : Char → Bool) (l : GoStr) (h : ∀ c ∈ l, p c = false) :
    l.dropWhile p = l := by
  cases l with
  | nil => rfl
  | cons c cs => simp [List.dropWhile_cons, h c (List.mem_cons_self c cs)]

lemma takeWhile_eq_self_of (p : Char → Bool) (l : GoStr) (h : ∀ c ∈ l, p c = true) :
    l.takeWhile p = l := by
  induction l with
  | nil => rfl
  | cons c cs ih =>
    simp [List.takeWhile_cons, h c (List.mem_cons_self c cs),
      ih (fun x hx => h x (List.mem_cons_of_mem c hx))]

/-- `filepath.Base` is the identity on a nonempty path without slashes. -/
lemma goFilepathBase_eq_self (l : GoStr) (h0 : l ≠ []) (h : ∀ c ∈ l, c ≠ '/') :
    goFilepathBase l = l := by
  have hd : l.reverse.dropWhile (fun c => c = '/') = l.reverse := by
    apply dropWhile_eq_self_of
    intro c hc
    simp [h c (List.mem_reverse.mp hc)]
  have ht : l.reverse.takeWhile (fun c => ¬ (c = '/')) = l.reverse := by
    apply takeWhile_eq_self_of
    intro c hc
    simp [h c (List.mem_reverse.mp hc)]
  simp only [goFilepathBase, if_neg h0, hd, List.reverse_reverse, ht]

lemma splitOnChar_ne_nil (sep : Char) (l : GoStr) : splitOnChar sep l ≠ [] := by
  cases l with
  | nil => simp [splitOnChar]
  | cons c cs =>
    cases h : splitOnChar sep cs with
    | nil => simp [splitOnChar, h]
    | cons t ts => by_cases hc : c = sep <;> simp [splitOnChar, h, hc]

/-- `strings.Split` on a separator-free string yields that single token. -/
lemma splitOnChar_no_sep (sep : Char) (l : GoStr) (h : sep ∉ l) :
    splitOnChar sep l = [ l ] := by
  induction l with
  | nil => rfl
  | cons c cs ih =>
    have hcs : sep ∉ cs := fun hm => h (List.mem_cons_of_mem c hm)
    have hc : ¬ (c = sep) := fun he => h (he ▸ List.mem_cons_self c cs)
    simp [splitOnChar, ih hcs, hc]

/-- `strings.Split` peels off a separator-free first token. -/
lemma splitOnChar_append_sep (sep : Char) (a b : GoStr) (h : sep ∉ a) :
    splitOnChar sep (a ++ sep :: b) = a :: splitOnChar sep b := by
  induction a with
  | nil =>
    cases hb : splitOnChar sep b with
    | nil => exact absurd hb (splitOnChar_ne_nil sep b)
    | cons t ts => simp [splitOnChar, hb]
  | cons c cs ih =>
    have hcs : sep ∉ cs := fun hm => h (List.mem_cons_of_mem c hm)
    have hc : ¬ (c = sep) := fun he => h (he ▸ List.mem_cons_self c cs)
    simp [splitOnChar, ih hcs, hc]

lemma parseDigitsAux_digits (l : GoStr) (acc : Nat)
    (h : ∀ c ∈ l, 48 ≤ c.toNat ∧ c.toNat ≤ 57) :
    parseDigitsAux acc l = some (digitsValAux acc l) := by
  induction l generalizing acc with
  | nil => rfl
  | cons c cs ih =>
    have hcd := h c (List.mem_cons_self c cs)
    show (if 48 ≤ c.toNat ∧ c.toNat ≤ 57 then parseDigitsAux (10 * acc + digitVal c) cs
      else none) = some (digitsValAux (10 * acc + digitVal c) cs)
    rw [if_pos hcd]
    exact ih _ (fun x hx => h x (List.mem_cons_of_mem c hx))

/-- `strconv.ParseInt(base 10, 64 bit)` succeeds with the digits' value on a
nonempty all-digit string whose value is below `2^63`. -/
lemma goParseInt64_digits (l : GoStr) (h0 : l ≠ [])
    (h : ∀ c ∈ l, 48 ≤ c.toNat ∧ c.toNat ≤ 57)
    (hr : digitsVal l < 2 ^ 63) :
    goParseInt64 l = .ok ((digitsVal l : Nat) : Int) := by
  cases l with
  | nil => exact absurd rfl h0
  | cons c cs =>
    have hc := h c (List.mem_cons_self c cs)
    have hminus : ¬ (c = '-') := by
      intro he
      rw [he] at hc
      simp at hc
    have hplus : ¬ (c = '+') := by
      intro he
      rw [he] at hc
      simp at hc
    have hp : parseDigits (c :: cs) = some (digitsValAux 0 (c :: cs)) :=
      parseDigitsAux_digits (c :: cs) 0 h
    simp only [goParseInt64, if_neg hminus, if_neg hplus, hp]
    rw [if_neg (by exact not_le.mpr hr)]
    rfl

lemma take_length_append (a b : GoStr) : (a ++ b).take a.length = a := by
  induction a with
  | nil => rfl
  | cons c cs ih => simp [ih]

/-- Stripping the extension and taking the base name of a path of the form
`stem ++ "." ++ ext` (no slash in the stem or extension, no dot in the
extension, nonempty stem) gives back the stem. -/
lemma baseNameNoExt_eq (stem ext : GoStr) (h0 : stem ≠ [])
    (hstem : ∀ c ∈ stem, c ≠ '/')
    (hext : ∀ c ∈ ext, c ≠ '.' ∧ c ≠ '/') :
    baseNameNoExt (stem ++ '.' :: ext) = stem := by
  have hrevmem : ∀ c ∈ ext.reverse, c ≠ '.' ∧ c ≠ '/' :=
    fun c hc => hext c (List.mem_reverse.mp hc)
  have hE : goFilepathExt (stem ++ '.' :: ext) = '.' :: ext := by
    unfold goFilepathExt
    rw [List.reverse_append, List.reverse_cons, List.append_assoc, List.singleton_append,
      extRevAux_clean _ _ _ hrevmem]
    simp
  have hlen : (stem ++ '.' :: ext).length - (goFilepathExt (stem ++ '.' :: ext)).length
      = stem.length := by
    rw [hE]
    simp
  unfold baseNameNoExt
  rw [hlen, take_length_append, goFilepathBase_eq_self stem h0 hstem]

/-! ## Claim C1: parsing valid object names -/

/-- C1: for every valid object name of the form `<shop>_<epoch>.<ext>` —
shop id without underscore or slash, nonempty all-digit epoch representable
in a signed 64-bit integer, extension without dot or slash — the parser
returns the shop id verbatim and the instant `<epoch>` Unix seconds (the
value `time.Unix(epoch, 0).Local()` denotes), with no error. -/
theorem claim1_parse_valid_object_name (shop epoch ext : GoStr)
    (hShopU : '_' ∉ shop) (hShopSlash : '/' ∉ shop)
    (hEpochNonempty : epoch ≠ [])
    (hEpochDigits : ∀ c ∈ epoch, 48 ≤ c.toNat ∧ c.toNat ≤ 57)
    (hEpochRange : digitsVal epoch < 2 ^ 63)
    (hExtDot : '.' ∉ ext) (hExtSlash : '/' ∉ ext) :
    getMetaFromObjName ((shop ++ '_' :: epoch) ++ '.' :: ext)
      = .ok shop ((digitsVal epoch : Nat) : Int) := by
  have h47 : ('/').toNat = 47 := rfl
  have h95 : ('_').toNat = 95 := rfl
  have hstemSlash : ∀ c ∈ shop ++ '_' :: epoch, c ≠ '/' := by
    intro c hc he
    subst he
    rcases List.mem_append.mp hc with h1 | h1
    · exact hShopSlash h1
    · rcases List.mem_cons.mp h1 with h2 | h2
      · exact absurd h2 (by decide)
      · have hd := (hEpochDigits _ h2).1
        rw [h47] at hd
        omega
  have hstemNe : shop ++ '_' :: epoch ≠ [] := by
    intro he
    exact List.cons_ne_nil _ _ (List.append_eq_nil.mp he).2
  have hExtmem : ∀ c ∈ ext, c ≠ '.' ∧ c ≠ '/' :=
    fun c hc => ⟨fun he => hExtDot (he ▸ hc), fun he => hExtSlash (he ▸ hc)⟩
  have hbase : baseNameNoExt ((shop ++ '_' :: epoch) ++ '.' :: ext) = shop ++ '_' :: epoch :=
    baseNameNoExt_eq _ _ hstemNe hstemSlash hExtmem
  have hEpochU : '_' ∉ epoch := by
    intro hm
    have hd := (hEpochDigits _ hm).2
    rw [h95] at hd
    omega
  have hsplit : splitOnChar '_' (shop ++ '_' :: epoch) = [ shop, epoch ] := by
    rw [splitOnChar_append_sep _ _ _ hShopU, splitOnChar_no_sep _ _ hEpochU]
  have hparse := goParseInt64_digits epoch hEpochNonempty hEpochDigits hEpochRange
  simp only [getMetaFromObjName, hbase, hsplit, hparse]

/-- Witness for C1 at the object name of the spec's end-to-end example. -/
theorem claim1_witness :
    getMetaFromObjName (str "shop42_1700000000.jpg") = .ok (str "shop42") 1700000000 := by
  have he : str "shop42_1700000000.jpg"
      = (str "shop42" ++ '_' :: str "1700000000") ++ '.' :: str "jpg" := by decide
  have h := claim1_parse_valid_object_name (str "shop42") (str "1700000000") (str "jpg")
    (by decide) (by decide) (by decide) (by decide) (by decide) (by decide) (by decide)
  rw [he, h]
  decide

/-! ## Claim C4: deviant object names -/

/-- C4 counterexample: `"shop42_100_200.jpg"` has a shop segment followed by
two underscore-separated segments — a deviation from
`<shopID>_<unixSeconds>.<ext>` with extra segments — yet the parser succeeds
(shop id `"shop42"`, epoch `100`) instead of returning a parse error. -/
theorem claim4_counterexample :
    getMetaFromObjName (str "shop42_100_200.jpg") = .ok (str "shop42") 100 := by decide

/-- C4 amended: a basename with no underscore at all makes the parser panic
(index out of range) rather than return an error; a second underscore token
on which `strconv.ParseInt` fails yields that error; extra
underscore-separated segments after a numeric second token are accepted
(shown by the counterexample). -/
theorem claim4_amended :
    (∀ l : GoStr, l ≠ [] → '_' ∉ l → '/' ∉ l → '.' ∉ l →
       getMetaFromObjName l = .panicked)
  ∧ (∀ (shop tok ext : GoStr) (pe : IntParseErr), '_' ∉ shop → '/' ∉ shop →
       '_' ∉ tok → '/' ∉ tok → '.' ∉ tok → '.' ∉ ext → '/' ∉ ext →
       goParseInt64 tok = .error pe →
       getMetaFromObjName ((shop ++ '_' :: tok) ++ '.' :: ext) = .err shop pe) := by
  constructor
  · intro l h0 hU hS hD
    have hE : goFilepathExt l = [] := by
      apply extRevAux_no_dot
      intro c hc
      have hm := List.mem_reverse.mp hc
      exact ⟨fun he => hD (he ▸ hm), fun he => hS (he ▸ hm)⟩
    have hbase : baseNameNoExt l = l := by
      unfold baseNameNoExt
      rw [hE]
      simp only [List.length_nil, Nat.sub_zero, List.take_length]
      exact goFilepathBase_eq_self l h0 (fun c hc he => hS (he ▸ hc))
    have hsplit : splitOnChar '_' l = [ l ] := splitOnChar_no_sep _ _ hU
    simp only [getMetaFromObjName, hbase, hsplit]
  · intro shop tok ext pe hShopU hShopS hTokU hTokS hTokD hExtD hExtS hparse
    have hstemSlash : ∀ c ∈ shop ++ '_' :: tok, c ≠ '/' := by
      intro c hc he
      subst he
      rcases List.mem_append.mp hc with h1 | h1
      · exact hShopS h1
      · rcases List.mem_cons.mp h1 with h2 | h2
        · exact absurd h2 (by decide)
        · exact hTokS h2
    have hstemNe : shop ++ '_' :: tok ≠ [] := by
      intro he
      exact List.cons_ne_nil _ _ (List.append_eq_nil.mp he).2
    have hExtmem : ∀ c ∈ ext, c ≠ '.' ∧ c ≠ '/' :=
      fun c hc => ⟨fun he => hExtD (he ▸ hc), fun he => hExtS (he ▸ hc)⟩
    have hbase : baseNameNoExt ((shop ++ '_' :: tok) ++ '.' :: ext) = shop ++ '_' :: tok :=
      baseNameNoExt_eq _ _ hstemNe hstemSlash hExtmem
    have hsplit : splitOnChar '_' (shop ++ '_' :: tok) = [ shop, tok ] := by
      rw [splitOnChar_append_sep _ _ _ hShopU, splitOnChar_no_sep _ _ hTokU]
    simp only [getMetaFromObjName, hbase, hsplit, hparse]

/-- Witness for the amended C4: a dotless name without underscore panics; a
non-numeric second token is a returned parse error. -/
theorem claim4_amended_witness :
    getMetaFromObjName (str "lineimg") = .panicked
  ∧ getMetaFromObjName (str "shop_abc.jpg") = .err (str "shop") .errInvalid := by
  constructor
  · exact claim4_amended.1 (str "lineimg") (by decide) (by decide) (by decide) (by decide)
  · have he : str "shop_abc.jpg" = (str "shop" ++ '_' :: str "abc") ++ '.' :: str "jpg" := by
      decide
    have h := claim4_amended.2 (str "shop") (str "abc") (str "jpg") .errInvalid
      (by decide) (by decide) (by decide) (by decide) (by decide) (by decide) (by decide)
      (by rfl)
    rw [he, h]

/-! ## Lemmas about the label loop -/

/-- The loop of lines 125–132 computes the instance count of the last
qualifying label, or leaves the accumulator untouched when none qualifies. -/
lemma detectPeopleNumLoop_eq (labels : List RekLabel) (acc : Nat) :
    detectPeopleNumLoop labels acc =
      (match lastQualified labels with
       | none => acc
       | some l => l.instances.length) := by
  induction labels generalizing acc with
  | nil => rfl
  | cons hd tl ih =>
    cases h : lastQualified tl with
    | none =>
      by_cases h1 : hd.confidence < mkRat 1 2
      · simp [detectPeopleNumLoop, h1, lastQualified, h, qualifies, ih]
      · by_cases h2 : hd.name = personStr
        · simp [detectPeopleNumLoop, h1, h2, lastQualified, h, qualifies, ih]
        · simp [detectPeopleNumLoop, h1, h2, lastQualified, h, qualifies, ih]
    | some r =>
      by_cases h1 : hd.confidence < mkRat 1 2
      · simp [detectPeopleNumLoop, h1, lastQualified, h, qualifies, ih]
      · by_cases h2 : hd.name = personStr
        · simp [detectPeopleNumLoop, h1, h2, lastQualified, h, qualifies, ih]
        · simp [detectPeopleNumLoop, h1, h2, lastQualified, h, qualifies, ih]

lemma lastQualified_eq_none (labels : List RekLabel) :
    lastQualified labels = none → ∀ l ∈ labels, qualifies l = false := by
  induction labels with
  | nil => intro _ l hl; cases hl
  | cons hd tl ih =>
    intro h l hl
    cases ht : lastQualified tl with
    | some r =>
      simp only [lastQualified, ht] at h
      simp at h
    | none =>
      simp only [lastQualified, ht] at h
      rcases List.mem_cons.mp hl with h2 | h2
      · subst h2
        by_cases hq : qualifies l
        · rw [if_pos hq] at h; cases h
        · simpa using hq
      · exact ih ht l h2

lemma lastQualified_mem (labels : List RekLabel) (l : RekLabel)
    (h : lastQualified labels = some l) : l ∈ labels ∧ qualifies l = true := by
  induction labels with
  | nil => cases h
  | cons hd tl ih =>
    cases ht : lastQualified tl with
    | some r =>
      simp only [lastQualified, ht] at h
      injection h with h
      subst h
      obtain ⟨hm, hq⟩ := ih ht
      exact ⟨List.mem_cons_of_mem hd hm, hq⟩
    | none =>
      simp only [lastQualified, ht] at h
      by_cases hq : qualifies hd
      · rw [if_pos hq] at h
        injection h with h
        subst h
        exact ⟨List.mem_cons_self _ _, hq⟩
      · rw [if_neg hq] at h; cases h

lemma lastQualified_append (labels : List RekLabel) (l : RekLabel)
    (hq : qualifies l = true) : lastQualified (labels ++ [ l ]) = some l := by
  induction labels with
  | nil => simp [lastQualified, hq]
  | cons hd tl ih => simp [lastQualified, ih]

/-! ## Claim C2: the waiting-people count -/

/-- C2: for every label-detection result, `waitingPeopleNum` is `0` when no
label both is named exactly `"Person"` and has confidence at least `0.5`
(this covers the `"Person"` label with confidence 0.49 and the label set
without a `"Person"` label), and otherwise equals the instance count of a
qualifying `"Person"` label of the list. -/
theorem claim2_waiting_people_num (labels : List RekLabel) :
    ((∀ l ∈ labels, qualifies l = false) → detectPeopleNum labels = 0)
  ∧ ((∃ l, l ∈ labels ∧ qualifies l = true) →
       ∃ l, l ∈ labels ∧ qualifies l = true ∧ detectPeopleNum labels = l.instances.length) := by
  constructor
  · intro h
    have hn : lastQualified labels = none := by
      cases ht : lastQualified labels with
      | none => rfl
      | some r =>
        obtain ⟨hm, hqr⟩ := lastQualified_mem labels r ht
        rw [h r hm] at hqr
        cases hqr
    rw [detectPeopleNum, detectPeopleNumLoop_eq, hn]
  · rintro ⟨l, hm, hq⟩
    cases ht : lastQualified labels with
    | none =>
      have hc := lastQualified_eq_none labels ht l hm
      rw [hq] at hc
      cases hc
    | some r =>
      obtain ⟨hmr, hqr⟩ := lastQualified_mem labels r ht
      refine ⟨r, hmr, hqr, ?_⟩
      rw [detectPeopleNum, detectPeopleNumLoop_eq, ht]

/-- Witness for C2 at the three label sets named by the claim: a `"Person"`
label of confidence 0.5 with three instances, one of confidence 0.49, and a
set with no `"Person"` label. -/
theorem claim2_witness :
    detectPeopleNum [ personLabelHalf ] = 3
  ∧ detectPeopleNum [ personLabelLow ] = 0
  ∧ detectPeopleNum [ carLabel ] = 0 := by
  refine ⟨?_, ?_, ?_⟩
  · obtain ⟨l, hm, hq, he⟩ := (claim2_waiting_people_num [ personLabelHalf ]).2
      ⟨personLabelHalf, List.mem_cons_self _ _, by decide⟩
    rw [List.mem_singleton] at hm
    subst hm
    rw [he]
    decide
  · exact (claim2_waiting_people_num [ personLabelLow ]).1 (by decide)
  · exact (claim2_waiting_people_num [ carLabel ]).1 (by decide)

/-! ## Claim C10: later qualifying labels overwrite earlier ones -/

/-- C10: whenever a qualifying `"Person"` label is the last element of the
label list, `waitingPeopleNum` equals its instance count — each later
qualifying `"Person"` label overwrites the count taken from earlier ones,
whatever came before it in the list. -/
theorem claim10_last_person_label_wins (labels : List RekLabel) (l : RekLabel)
    (hq : qualifies l = true) :
    detectPeopleNum (labels ++ [ l ]) = l.instances.length := by
  rw [detectPeopleNum, detectPeopleNumLoop_eq, lastQualified_append labels l hq]

/-- Witness for C10: two qualifying `"Person"` labels with three and five
instances; the result is the last one's five, not the first one's three. -/
theorem claim10_witness :
    detectPeopleNum ([ personLabelHalf ] ++ [ personLabelFive ]) = 5 := by
  rw [claim10_last_person_label_wins [ personLabelHalf ] personLabelFive (by decide)]
  decide

/-! ## Lemmas about record assembly and the orchestrator -/

lemma buildCustomers_length (id : GoStr) (faces : List FaceDetail) :
    (buildCustomers id faces).length = faces.length := by
  induction faces with
  | nil => rfl
  | cons fd rest ih => simp [buildCustomers, ih]

lemma buildCustomers_fk (id : GoStr) (faces : List FaceDetail) :
    ∀ m ∈ buildCustomers id faces, m.lineObservationID = id := by
  induction faces with
  | nil => intro m hm; cases hm
  | cons fd rest ih =>
    intro m hm
    rcases List.mem_cons.mp hm with h | h
    · subst h; rfl
    · exact ih m h

/-- Reduction of a full invocation in which every external call succeeds and
the object name parses. -/
lemma analyze_success (env : Env) (e : GcsEvent) (shopID : GoStr) (obsAt : Int)
    (labels : List RekLabel) (faces : List FaceDetail) (bytes : List Nat)
    (h1 : env.initGcsClient = .ok ()) (h2 : env.gcpProjectID ≠ [])
    (h3 : env.initBqClient = .ok ())
    (h4 : getMetaFromObjName e.objectName = .ok shopID obsAt)
    (h5 : env.newReader = .ok ()) (h6 : env.newAwsSession = .ok ())
    (h7 : env.readAll = .ok bytes) (h8 : env.detectLabels = .ok labels)
    (h9 : env.detectFaces = .ok faces)
    (h10 : env.putLineObservation = none) (h11 : env.putWaitingCustomerMeta = none) :
    AnalyzeLineImage env e =
      ([ Act.initGcsClient, Act.initBqClient, Act.generateID env.freshID,
         Act.parseObjName e.objectName, Act.openReader, Act.newAwsSession,
         Act.readImgBytes, Act.detectLabelsCall, Act.detectFacesCall,
         Act.putLineObservationRow
           { id := env.freshID, shopID := shopID,
             waitingPeopleNum := detectPeopleNum labels,
             observedAt := obsAt, createdAt := env.now },
         Act.putWaitingCustomerMetaRows (buildCustomers env.freshID faces) ],
       RunResult.ok) := by
  simp [AnalyzeLineImage, detectWaitingCustomersFromImg, mustEnv,
    h1, h2, h3, h4, h5, h6, h7, h8, h9, h10, h11]

/-! ## Claim C3: one meta record per face, all keyed by the invocation id -/

/-- C3: for every face-detection result with `N` faces (including `N = 0`),
a successful invocation writes exactly `N` `waitingCustomerMeta` rows, and
every row's `lineObservationID` equals the id of the `lineObservation` row
written by the same invocation, which is the invocation's generated id. -/
theorem claim3_meta_records (env : Env) (e : GcsEvent) (shopID : GoStr) (obsAt : Int)
    (labels : List RekLabel) (faces : List FaceDetail) (bytes : List Nat)
    (h1 : env.initGcsClient = .ok ()) (h2 : env.gcpProjectID ≠ [])
    (h3 : env.initBqClient = .ok ())
    (h4 : getMetaFromObjName e.objectName = .ok shopID obsAt)
    (h5 : env.newReader = .ok ()) (h6 : env.newAwsSession = .ok ())
    (h7 : env.readAll = .ok bytes) (h8 : env.detectLabels = .ok labels)
    (h9 : env.detectFaces = .ok faces)
    (h10 : env.putLineObservation = none) (h11 : env.putWaitingCustomerMeta = none) :
    ∃ tr lo,
      AnalyzeLineImage env e =
        (tr ++ [ Act.putLineObservationRow lo,
                 Act.putWaitingCustomerMetaRows (buildCustomers env.freshID faces) ],
         RunResult.ok)
      ∧ lo.id = env.freshID
      ∧ (buildCustomers env.freshID faces).length = faces.length
      ∧ ∀ m ∈ buildCustomers env.freshID faces, m.lineObservationID = lo.id := by
  refine ⟨[ Act.initGcsClient, Act.initBqClient, Act.generateID env.freshID,
            Act.parseObjName e.objectName, Act.openReader, Act.newAwsSession,
            Act.readImgBytes, Act.detectLabelsCall, Act.detectFacesCall ],
          { id := env.freshID, shopID := shopID,
            waitingPeopleNum := detectPeopleNum labels,
            observedAt := obsAt, createdAt := env.now },
          ?_, rfl, buildCustomers_length _ _, buildCustomers_fk _ _⟩
  rw [analyze_success env e shopID obsAt labels faces bytes
    h1 h2 h3 h4 h5 h6 h7 h8 h9 h10 h11]
  simp

/-- Witness for C3 at the concrete all-success environment with one face. -/
theorem claim3_witness :
    ∃ tr lo,
      AnalyzeLineImage envAllOk evShop42 =
        (tr ++ [ Act.putLineObservationRow lo,
                 Act.putWaitingCustomerMetaRows
                   (buildCustomers envAllOk.freshID [ faceOne ]) ],
         RunResult.ok)
      ∧ lo.id = envAllOk.freshID
      ∧ (buildCustomers envAllOk.freshID [ faceOne ]).length = 1
      ∧ ∀ m ∈ buildCustomers envAllOk.freshID [ faceOne ], m.lineObservationID = lo.id :=
  claim3_meta_records envAllOk evShop42 (str "shop42") 1700000000
    [ personLabelHalf ] [ faceOne ] [ 255, 216 ]
    rfl (by decide) rfl (by decide) rfl rfl rfl rfl rfl rfl rfl

/-! ## Claim C5: the two store writes -/

/-- C5: the two table writes are issued sequentially with the observation
write first. If the observation write fails, the invocation returns the
store-stage error wrapped `"put analyzed lineObservation data"` and no meta
write is attempted. If the observation write succeeds and the meta write
fails, the invocation still returns an error (the trace shows the
observation write followed by the meta write, and the model has no
compensating delete action at all). -/
theorem claim5_store_writes (env : Env) (e : GcsEvent) (shopID : GoStr) (obsAt : Int)
    (labels : List RekLabel) (faces : List FaceDetail) (bytes : List Nat)
    (h1 : env.initGcsClient = .ok ()) (h2 : env.gcpProjectID ≠ [])
    (h3 : env.initBqClient = .ok ())
    (h4 : getMetaFromObjName e.objectName = .ok shopID obsAt)
    (h5 : env.newReader = .ok ()) (h6 : env.newAwsSession = .ok ())
    (h7 : env.readAll = .ok bytes) (h8 : env.detectLabels = .ok labels)
    (h9 : env.detectFaces = .ok faces) :
    (∀ ge, env.putLineObservation = some ge →
       (AnalyzeLineImage env e).2
           = .err { wraps := [ str "put analyzed lineObservation data" ],
                    cause := .external ge }
       ∧ ∀ rows, Act.putWaitingCustomerMetaRows rows ∉ (AnalyzeLineImage env e).1)
  ∧ (∀ ge, env.putLineObservation = none → env.putWaitingCustomerMeta = some ge →
       (AnalyzeLineImage env e).2
           = .err { wraps := [ str "load analyzed lineObservation data to bq faile" ],
                    cause := .external ge }
       ∧ ∃ tr lo rows, (AnalyzeLineImage env e).1
           = tr ++ [ Act.putLineObservationRow lo, Act.putWaitingCustomerMetaRows rows ]) := by
  constructor
  · intro ge h10
    constructor
    · simp [AnalyzeLineImage, detectWaitingCustomersFromImg, mustEnv,
        h1, h2, h3, h4, h5, h6, h7, h8, h9, h10]
    · intro rows
      simp [AnalyzeLineImage, detectWaitingCustomersFromImg, mustEnv,
        h1, h2, h3, h4, h5, h6, h7, h8, h9, h10]
  · intro ge h10 h11
    constructor
    · simp [AnalyzeLineImage, detectWaitingCustomersFromImg, mustEnv,
        h1, h2, h3, h4, h5, h6, h7, h8, h9, h10, h11]
    · refine ⟨[ Act.initGcsClient, Act.initBqClient, Act.generateID env.freshID,
                Act.parseObjName e.objectName, Act.openReader, Act.newAwsSession,
                Act.readImgBytes, Act.detectLabelsCall, Act.detectFacesCall ],
              { id := env.freshID, shopID := shopID,
                waitingPeopleNum := detectPeopleNum labels,
                observedAt := obsAt, createdAt := env.now },
              buildCustomers env.freshID faces, ?_⟩
      simp [AnalyzeLineImage, detectWaitingCustomersFromImg, mustEnv,
        h1, h2, h3, h4, h5, h6, h7, h8, h9, h10, h11]

/-- Witness for C5: with the observation insert failing, the invocation
returns the store-stage error and never attempts the meta insert. -/
theorem claim5_witness :
    (AnalyzeLineImage { envAllOk with putLineObservation := some geBoom } evShop42).2
        = .err { wraps := [ str "put analyzed lineObservation data" ],
                 cause := .external geBoom }
  ∧ ∀ rows, Act.putWaitingCustomerMetaRows rows ∉
      (AnalyzeLineImage { envAllOk with putLineObservation := some geBoom } evShop42).1 :=
  (claim5_store_writes { envAllOk with putLineObservation := some geBoom } evShop42
    (str "shop42") 1700000000 [ personLabelHalf ] [ faceOne ] [ 255, 216 ]
    rfl (by decide) rfl (by decide) rfl rfl rfl rfl rfl).1 geBoom rfl

/-! ## Claim C6: an empty face list persists as a no-op meta write -/

/-- C6: an invocation whose face-detection result is empty succeeds — the
meta write receives the empty row collection (zero records into the second
table) and the run returns no error. -/
theorem claim6_empty_faces (env : Env) (e : GcsEvent) (shopID : GoStr) (obsAt : Int)
    (labels : List RekLabel) (bytes : List Nat)
    (h1 : env.initGcsClient = .ok ()) (h2 : env.gcpProjectID ≠ [])
    (h3 : env.initBqClient = .ok ())
    (h4 : getMetaFromObjName e.objectName = .ok shopID obsAt)
    (h5 : env.newReader = .ok ()) (h6 : env.newAwsSession = .ok ())
    (h7 : env.readAll = .ok bytes) (h8 : env.detectLabels = .ok labels)
    (h9 : env.detectFaces = .ok [])
    (h10 : env.putLineObservation = none) (h11 : env.putWaitingCustomerMeta = none) :
    AnalyzeLineImage env e =
      ([ Act.initGcsClient, Act.initBqClient, Act.generateID env.freshID,
         Act.parseObjName e.objectName, Act.openReader, Act.newAwsSession,
         Act.readImgBytes, Act.detectLabelsCall, Act.detectFacesCall,
         Act.putLineObservationRow
           { id := env.freshID, shopID := shopID,
             waitingPeopleNum := detectPeopleNum labels,
             observedAt := obsAt, createdAt := env.now },
         Act.putWaitingCustomerMetaRows [] ],
       RunResult.ok) :=
  analyze_success env e shopID obsAt labels [] bytes h1 h2 h3 h4 h5 h6 h7 h8 h9 h10 h11

/-- Witness for C6 at the all-success environment with no detected faces. -/
theorem claim6_witness :
    AnalyzeLineImage { envAllOk with detectFaces := .ok [] } evShop42
      = ([ Act.initGcsClient, Act.initBqClient, Act.generateID envAllOk.freshID,
           Act.parseObjName evShop42.objectName, Act.openReader, Act.newAwsSession,
           Act.readImgBytes, Act.detectLabelsCall, Act.detectFacesCall,
           Act.putLineObservationRow
             { id := envAllOk.freshID, shopID := str "shop42",
               waitingPeopleNum := detectPeopleNum [ personLabelHalf ],
               observedAt := 1700000000, createdAt := envAllOk.now },
           Act.putWaitingCustomerMetaRows [] ],
         RunResult.ok) :=
  claim6_empty_faces { envAllOk with detectFaces := .ok [] } evShop42 (str "shop42")
    1700000000 [ personLabelHalf ] [ 255, 216 ] rfl (by decide) rfl (by decide)
    rfl rfl rfl rfl rfl rfl rfl

/-! ## Claim C7: a failed object fetch short-circuits the pipeline -/

/-- C7: when opening the object's read stream fails, the invocation returns
the error wrapped `"new <name> reader failed"`, and the trace contains no
byte read, no label- or face-detection call, and no store write. -/
theorem claim7_fetch_failure (env : Env) (e : GcsEvent) (ge : GoErr)
    (shopID : GoStr) (obsAt : Int)
    (h1 : env.initGcsClient = .ok ()) (h2 : env.gcpProjectID ≠ [])
    (h3 : env.initBqClient = .ok ())
    (h4 : getMetaFromObjName e.objectName = .ok shopID obsAt)
    (h5 : env.newReader = .error ge) :
    AnalyzeLineImage env e =
      ([ Act.initGcsClient, Act.initBqClient, Act.generateID env.freshID,
         Act.parseObjName e.objectName, Act.openReader ],
       .err { wraps := [ (str "new ") ++ e.objectName ++ (str " reader failed") ],
              cause := .external ge })
    ∧ ∀ a ∈ (AnalyzeLineImage env e).1,
        a ≠ Act.readImgBytes ∧ a ≠ Act.detectLabelsCall ∧ a ≠ Act.detectFacesCall
        ∧ (∀ lo, a ≠ Act.putLineObservationRow lo)
        ∧ (∀ rows, a ≠ Act.putWaitingCustomerMetaRows rows) := by
  have hred : AnalyzeLineImage env e =
      ([ Act.initGcsClient, Act.initBqClient, Act.generateID env.freshID,
         Act.parseObjName e.objectName, Act.openReader ],
       .err { wraps := [ (str "new ") ++ e.objectName ++ (str " reader failed") ],
              cause := .external ge }) := by
    simp [AnalyzeLineImage, mustEnv, h1, h2, h3, h4, h5]
  refine ⟨hred, ?_⟩
  rw [hred]
  intro a ha
  simp only [List.mem_cons, List.not_mem_nil, or_false] at ha
  rcases ha with h | h | h | h | h
  all_goals subst h
  all_goals exact ⟨by simp, by simp, by simp, fun lo => by simp, fun rows => by simp⟩

/-- Witness for C7: the all-success environment with a failing reader. -/
theorem claim7_witness :
    AnalyzeLineImage { envAllOk with newReader := .error geBoom } evShop42
      = ([ Act.initGcsClient, Act.initBqClient, Act.generateID envAllOk.freshID,
           Act.parseObjName evShop42.objectName, Act.openReader ],
         .err { wraps := [ (str "new ") ++ evShop42.objectName ++ (str " reader failed") ],
                cause := .external geBoom }) :=
  (claim7_fetch_failure { envAllOk with newReader := .error geBoom } evShop42 geBoom
    (str "shop42") 1700000000 rfl (by decide) rfl (by decide) rfl).1

/-! ## Claim C8: the orchestrator's step order and stage labels -/

/-- C8 counterexample: in a fully successful invocation the object name is
parsed strictly before the object's bytes are read (both steps occur), while
the claim orders reading the object bytes before parsing the metadata. -/
theorem claim8_counterexample :
    ((AnalyzeLineImage envAllOk evShop42).1.findIdx Act.isParse
       < (AnalyzeLineImage envAllOk evShop42).1.findIdx Act.isRead)
  ∧ (AnalyzeLineImage envAllOk evShop42).1.any Act.isParse = true
  ∧ (AnalyzeLineImage envAllOk evShop42).1.any Act.isRead = true := by decide

/-- C8 amended: the orchestrator's order is: acquire the object-source (GCS)
client, check the required configuration and acquire the store (BigQuery)
client, generate the fresh ObservationID, parse metadata from the object
name, open the object reader, run detection (AWS session, byte read, label
call, face call), then assemble and persist — observation row first, meta
rows second. Each step's failure is returned wrapped with a label
identifying the failed stage (the missing-configuration check excepted,
which kills the process, claim C9). -/
theorem claim8_amended (env : Env) (e : GcsEvent) :
    (∀ shopID obsAt labels faces bytes,
       env.initGcsClient = .ok () → env.gcpProjectID ≠ [] →
       env.initBqClient = .ok () →
       getMetaFromObjName e.objectName = .ok shopID obsAt →
       env.newReader = .ok () → env.newAwsSession = .ok () →
       env.readAll = .ok bytes → env.detectLabels = .ok labels →
       env.detectFaces = .ok faces →
       env.putLineObservation = none → env.putWaitingCustomerMeta = none →
       AnalyzeLineImage env e =
         ([ Act.initGcsClient, Act.initBqClient, Act.generateID env.freshID,
            Act.parseObjName e.objectName, Act.openReader, Act.newAwsSession,
            Act.readImgBytes, Act.detectLabelsCall, Act.detectFacesCall,
            Act.putLineObservationRow
              { id := env.freshID, shopID := shopID,
                waitingPeopleNum := detectPeopleNum labels,
                observedAt := obsAt, createdAt := env.now },
            Act.putWaitingCustomerMetaRows (buildCustomers env.freshID faces) ],
          RunResult.ok))
  ∧ (∀ ge, env.initGcsClient = .error ge →
       AnalyzeLineImage env e
         = ([ Act.initGcsClient ],
            .err { wraps := [ str "init gcs client" ], cause := .external ge }))
  ∧ (∀ ge, env.initGcsClient = .ok () → env.gcpProjectID ≠ [] →
       env.initBqClient = .error ge →
       AnalyzeLineImage env e
         = ([ Act.initGcsClient, Act.initBqClient ],
            .err { wraps := [ str "init bigquery client failed" ],
                   cause := .external ge }))
  ∧ (∀ shopID pe, env.initGcsClient = .ok () → env.gcpProjectID ≠ [] →
       env.initBqClient = .ok () →
       getMetaFromObjName e.objectName = .err shopID pe →
       AnalyzeLineImage env e
         = ([ Act.initGcsClient, Act.initBqClient, Act.generateID env.freshID,
              Act.parseObjName e.objectName ],
            .err { wraps := [ (str "get lineObservation meta from ") ++ e.objectName ],
                   cause := .intParse pe }))
  ∧ (∀ shopID obsAt ge, env.initGcsClient = .ok () → env.gcpProjectID ≠ [] →
       env.initBqClient = .ok () →
       getMetaFromObjName e.objectName = .ok shopID obsAt →
       env.newReader = .error ge →
       (AnalyzeLineImage env e).2
         = .err { wraps := [ (str "new ") ++ e.objectName ++ (str " reader failed") ],
                  cause := .external ge })
  ∧ (∀ shopID obsAt ge, env.initGcsClient = .ok () → env.gcpProjectID ≠ [] →
       env.initBqClient = .ok () →
       getMetaFromObjName e.objectName = .ok shopID obsAt →
       env.newReader = .ok () → env.newAwsSession = .error ge →
       (AnalyzeLineImage env e).2
         = .err { wraps := [ (str "analyze ") ++ e.objectName ++ (str " image failed"),
                             str "new aws session" ],
                  cause := .external ge })
  ∧ (∀ shopID obsAt ge, env.initGcsClient = .ok () → env.gcpProjectID ≠ [] →
       env.initBqClient = .ok () →
       getMetaFromObjName e.objectName = .ok shopID obsAt →
       env.newReader = .ok () → env.newAwsSession = .ok () →
       env.readAll = .error ge →
       (AnalyzeLineImage env e).2
         = .err { wraps := [ (str "analyze ") ++ e.objectName ++ (str " image failed"),
                             str "read img bytes from reader" ],
                  cause := .external ge })
  ∧ (∀ shopID obsAt bytes ge, env.initGcsClient = .ok () → env.gcpProjectID ≠ [] →
       env.initBqClient = .ok () →
       getMetaFromObjName e.objectName = .ok shopID obsAt →
       env.newReader = .ok () → env.newAwsSession = .ok () →
       env.readAll = .ok bytes → env.detectLabels = .error ge →
       (AnalyzeLineImage env e).2
         = .err { wraps := [ (str "analyze ") ++ e.objectName ++ (str " image failed"),
                             str "detect labels" ],
                  cause := .external ge })
  ∧ (∀ shopID obsAt bytes labels ge, env.initGcsClient = .ok () → env.gcpProjectID ≠ [] →
       env.initBqClient = .ok () →
       getMetaFromObjName e.objectName = .ok shopID obsAt →
       env.newReader = .ok () → env.newAwsSession = .ok () →
       env.readAll = .ok bytes → env.detectLabels = .ok labels →
       env.detectFaces = .error ge →
       (AnalyzeLineImage env e).2
         = .err { wraps := [ (str "analyze ") ++ e.objectName ++ (str " image failed"),
                             str "detect faces" ],
                  cause := .external ge })
  ∧ (∀ shopID obsAt bytes labels faces ge,
       env.initGcsClient = .ok () → env.gcpProjectID ≠ [] →
       env.initBqClient = .ok () →
       getMetaFromObjName e.objectName = .ok shopID obsAt →
       env.newReader = .ok () → env.newAwsSession = .ok () →
       env.readAll = .ok bytes → env.detectLabels = .ok labels →
       env.detectFaces = .ok faces → env.putLineObservation = some ge →
       (AnalyzeLineImage env e).2
         = .err { wraps := [ str "put analyzed lineObservation data" ],
                  cause := .external ge })
  ∧ (∀ shopID obsAt bytes labels faces ge,
       env.initGcsClient = .ok () → env.gcpProjectID ≠ [] →
       env.initBqClient = .ok () →
       getMetaFromObjName e.objectName = .ok shopID obsAt →
       env.newReader = .ok () → env.newAwsSession = .ok () →
       env.readAll = .ok bytes → env.detectLabels = .ok labels →
       env.detectFaces = .ok faces → env.putLineObservation = none →
       env.putWaitingCustomerMeta = some ge →
       (AnalyzeLineImage env e).2
         = .err { wraps := [ str "load analyzed lineObservation data to bq faile" ],
                  cause := .external ge }) := by
  refine ⟨?_, ?_, ?_, ?_, ?_, ?_, ?_, ?_, ?_, ?_, ?_⟩
  · intro shopID obsAt labels faces bytes h1 h2 h3 h4 h5 h6 h7 h8 h9 h10 h11
    exact analyze_success env e shopID obsAt labels faces bytes
      h1 h2 h3 h4 h5 h6 h7 h8 h9 h10 h11
  · intro ge h1
    simp [AnalyzeLineImage, h1]
  · intro ge h1 h2 h3
    simp [AnalyzeLineImage, mustEnv, h1, h2, h3]
  · intro shopID pe h1 h2 h3 h4
    simp [AnalyzeLineImage, mustEnv, h1, h2, h3, h4]
  · intro shopID obsAt ge h1 h2 h3 h4 h5
    simp [AnalyzeLineImage, mustEnv, h1, h2, h3, h4, h5]
  · intro shopID obsAt ge h1 h2 h3 h4 h5 h6
    simp [AnalyzeLineImage, detectWaitingCustomersFromImg, mustEnv,
      h1, h2, h3, h4, h5, h6]
  · intro shopID obsAt ge h1 h2 h3 h4 h5 h6 h7
    simp [AnalyzeLineImage, detectWaitingCustomersFromImg, mustEnv,
      h1, h2, h3, h4, h5, h6, h7]
  · intro shopID obsAt bytes ge h1 h2 h3 h4 h5 h6 h7 h8
    simp [AnalyzeLineImage, detectWaitingCustomersFromImg, mustEnv,
      h1, h2, h3, h4, h5, h6, h7, h8]
  · intro shopID obsAt bytes labels ge h1 h2 h3 h4 h5 h6 h7 h8 h9
    simp [AnalyzeLineImage, detectWaitingCustomersFromImg, mustEnv,
      h1, h2, h3, h4, h5, h6, h7, h8, h9]
  · intro shopID obsAt bytes labels faces ge h1 h2 h3 h4 h5 h6 h7 h8 h9 h10
    simp [AnalyzeLineImage, detectWaitingCustomersFromImg, mustEnv,
      h1, h2, h3, h4, h5, h6, h7, h8, h9, h10]
  · intro shopID obsAt bytes labels faces ge h1 h2 h3 h4 h5 h6 h7 h8 h9 h10 h11
    simp [AnalyzeLineImage, detectWaitingCustomersFromImg, mustEnv,
      h1, h2, h3, h4, h5, h6, h7, h8, h9, h10, h11]

/-- Witness for the amended C8: the full ordered trace of a successful
invocation at the concrete all-success environment. -/
theorem claim8_witness :
    AnalyzeLineImage envAllOk evShop42
      = ([ Act.initGcsClient, Act.initBqClient, Act.generateID envAllOk.freshID,
           Act.parseObjName evShop42.objectName, Act.openReader, Act.newAwsSession,
           Act.readImgBytes, Act.detectLabelsCall, Act.detectFacesCall,
           Act.putLineObservationRow
             { id := envAllOk.freshID, shopID := str "shop42",
               waitingPeopleNum := detectPeopleNum [ personLabelHalf ],
               observedAt := 1700000000, createdAt := envAllOk.now },
           Act.putWaitingCustomerMetaRows (buildCustomers envAllOk.freshID [ faceOne ]) ],
         RunResult.ok) :=
  (claim8_amended envAllOk evShop42).1 (str "shop42") 1700000000
    [ personLabelHalf ] [ faceOne ] [ 255, 216 ]
    rfl (by decide) rfl (by decide) rfl rfl rfl rfl rfl rfl rfl

/-! ## Claim C9: missing configuration -/

/-- C9 counterexample: detection of the missing project id is not a
process-startup condition — an invocation with the id unset first performs
the GCS client initialisation and only then dies, inside the invocation, so
the spec-modelled startup property `missingConfigFatalAtStartup` is false of
the code. -/
theorem claim9_counterexample : ¬ missingConfigFatalAtStartup := by
  intro h
  obtain ⟨m, hm⟩ := h envNoConfig evShop42 rfl
  have hred : AnalyzeLineImage envNoConfig evShop42
      = ([ Act.initGcsClient ],
         RunResult.fatal ((str "env variable with key=") ++ (str "GCP_PROJECT_ID")
           ++ (str " is not found"))) := by decide
  rw [hred] at hm
  simp at hm

/-- C9 amended: an unset or empty `GCP_PROJECT_ID` terminates the whole
process (`log.Fatal`) instead of being returned as a per-invocation error,
but the check runs inside every invocation of the entry point, after the
object-store client has been initialised — not at process startup. -/
theorem claim9_amended (env : Env) (e : GcsEvent)
    (h0 : env.gcpProjectID = []) (h1 : env.initGcsClient = .ok ()) :
    AnalyzeLineImage env e =
      ([ Act.initGcsClient ],
       RunResult.fatal ((str "env variable with key=") ++ (str "GCP_PROJECT_ID")
         ++ (str " is not found"))) := by
  simp [AnalyzeLineImage, mustEnv, h0, h1]

/-- Witness for the amended C9 at the concrete no-config environment. -/
theorem claim9_witness :
    AnalyzeLineImage envNoConfig evShop42 =
      ([ Act.initGcsClient ],
       RunResult.fatal ((str "env variable with key=") ++ (str "GCP_PROJECT_ID")
         ++ (str " is not found"))) :=
  claim9_amended envNoConfig evShop42 rfl rfl
